import Mathlib

/-!
Verification development for the Azure VM provisioning script
(`script/create_vm.py`).  The Python code is shallowly embedded: the
configuration dictionary becomes a structure of `Option`-valued fields
(`none` models an absent key), the remote Azure clients become explicit
oracles / world states, and each method of `VMConfig` / `AzureVMCreator`
that the claims touch becomes a Lean function translated line by line
from the source.
-/

namespace CreateVM

/-! ## Configuration data model (`VMConfig`, lines 52–132)

The Python configuration is a nested dictionary.  Each key a claim
touches is modelled as an `Option` field (`none` = key absent).  Fields
of the default configuration that no claim inspects (`os_type`, `image`,
`disk`) are omitted.  Python names ending in `prefix` are rendered with
the suffix `pfx` (`subnet_address_prefix` ↦ `subnet_address_pfx`,
`source_address_prefix` ↦ `source_address_pfx`, and so on). -/

structure SecuritySection where
  ssh_port : Option Nat
  allowed_ssh_sources : Option (List String)
  deriving Repr, DecidableEq

structure NetworkSection where
  vnet_name : Option String
  vnet_address_space : Option String
  subnet_name : Option String
  subnet_address_pfx : Option String
  public_ip_name : Option String
  nsg_name : Option String
  nic_name : Option String
  deriving Repr, DecidableEq

structure Config where
  vm_name : Option String
  resource_group : Option String
  location : Option String
  vm_size : Option String
  admin_username : Option String
  admin_password : Option String
  network : Option NetworkSection
  security : Option SecuritySection
  tags : Option (List (String × String))
  deriving Repr, DecidableEq

/-- `VMConfig._default_config` (lines 59–96), restricted to the modelled
fields.  The default configuration carries no `admin_password` key. -/
def defaultConfig : Config where
  vm_name := some "azure-vm-prod"
  resource_group := some "rg-azure-vm"
  location := some "East US"
  vm_size := some "Standard_B2s"
  admin_username := some "azureuser"
  admin_password := none
  network := some
    { vnet_name := some "vnet-azure-vm"
      vnet_address_space := some "10.0.0.0/16"
      subnet_name := some "subnet-default"
      subnet_address_pfx := some "10.0.0.0/24"
      public_ip_name := some "ip-azure-vm"
      nsg_name := some "nsg-azure-vm"
      nic_name := some "nic-azure-vm" }
  security := some { ssh_port := some 22, allowed_ssh_sources := some ["*"] }
  tags := some [("Environment", "Production"), ("CreatedBy", "AzureVMCreator"),
                ("Project", "Infrastructure")]

/-! ## Validation (`VMConfig.validate`, lines 112–128) -/

/-- Python truthiness of `self.config.get(field)` for a string-valued
key: `None` (absent) and the empty string are both falsy. -/
def pyTruthy : Option String → Bool
  | none => false
  | some s => !s.isEmpty

/-- Per-character model of Python `str.isalnum` restricted to ASCII
(the CPython function additionally accepts non-ASCII Unicode
alphanumerics; no claim depends on non-ASCII input). -/
def pyIsAlnumChar (c : Char) : Bool := c.isAlpha || c.isDigit

/-- Python `str.isalnum`: true iff the string is non-empty and every
character is alphanumeric.  Note `"".isalnum()` is `False`. -/
def pyIsAlnum (s : String) : Bool := !s.data.isEmpty && s.data.all pyIsAlnumChar

/-- `vm_name.replace('-', '').replace('_', '')` (line 123): removing
every hyphen and underscore. -/
def stripDashUnderscore (s : String) : String :=
  ⟨s.data.filter (fun c => !(c == '-' || c == '_'))⟩

/-- The vm-name test of line 123:
`1 <= len(vm_name) <= 64 and vm_name.replace('-','').replace('_','').isalnum()`. -/
def vmNameOk (s : String) : Bool :=
  (1 ≤ s.length && s.length ≤ 64) && pyIsAlnum (stripDashUnderscore s)

/-- `VMConfig.validate` (lines 112–128).  The loop over
`required_fields = ['vm_name', 'resource_group', 'location',
'admin_username']` returns `False` at the first falsy field; then the
vm-name shape is checked.  Nothing else is inspected. -/
def validate (cfg : Config) : Bool :=
  pyTruthy cfg.vm_name && pyTruthy cfg.resource_group &&
  pyTruthy cfg.location && pyTruthy cfg.admin_username &&
  vmNameOk (cfg.vm_name.getD "")

/-- Written from the spec's words, for comparison with `vmNameOk`: the
regular expression `^[A-Za-z0-9_-]{1,64}$` of §4.1 rule 2 — between 1
and 64 characters, each an ASCII letter, digit, hyphen or underscore. -/
def matchesVmNameRegex (s : String) : Bool :=
  (1 ≤ s.length && s.length ≤ 64) &&
  s.data.all (fun c => c.isAlpha || c.isDigit || c == '-' || c == '_')

/-! ## Network security group rules
(`AzureVMCreator.create_network_security_group`, lines 262–316) -/

structure SecurityRule where
  name : String
  protocol : String
  source_port_range : String
  destination_port_range : String
  source_address_pfx : String
  destination_address_pfx : String
  access : String
  priority : Nat
  direction : String
  deriving Repr, DecidableEq

/-- The rule appended for `(i, source)` by the `for i, source in
enumerate(allowed_sources)` loop (lines 274–285). -/
def allowSshRule (ssh_port : Nat) (i : Nat) (source : String) : SecurityRule where
  name := "SSH_" ++ toString (i + 1)
  protocol := "Tcp"
  source_port_range := "*"
  destination_port_range := toString ssh_port
  source_address_pfx := source
  destination_address_pfx := "*"
  access := "Allow"
  priority := 1000 + i
  direction := "Inbound"

/-- The terminal catch-all rule (lines 288–298). -/
def denyAllInboundRule : SecurityRule where
  name := "DenyAllInbound"
  protocol := "*"
  source_port_range := "*"
  destination_port_range := "*"
  source_address_pfx := "*"
  destination_address_pfx := "*"
  access := "Deny"
  priority := 4096
  direction := "Inbound"

/-- The `enumerate` loop of lines 274–285, with `i` the running index. -/
def buildAllowRules (ssh_port : Nat) : Nat → List String → List SecurityRule
  | _, [] => []
  | i, s :: rest => allowSshRule ssh_port i s :: buildAllowRules ssh_port (i + 1) rest

/-- The complete `security_rules` list built by
`create_network_security_group` (lines 267–298), including the
defaulting of lines 267–269: `security_config = self.config.get('security', {})`,
`ssh_port = security_config.get('ssh_port', 22)`,
`allowed_sources = security_config.get('allowed_ssh_sources', ['*'])`. -/
def nsgSecurityRules (cfg : Config) : List SecurityRule :=
  let sec := cfg.security.getD { ssh_port := none, allowed_ssh_sources := none }
  buildAllowRules (sec.ssh_port.getD 22) 0 (sec.allowed_ssh_sources.getD ["*"]) ++
    [denyAllInboundRule]

theorem length_buildAllowRules (p i : Nat) (l : List String) :
    (buildAllowRules p i l).length = l.length := by
  induction l generalizing i with
  | nil => rfl
  | cons s rest ih => simp [buildAllowRules, ih]

theorem getElem?_buildAllowRules (p i : Nat) (l : List String) (j : Nat) :
    (buildAllowRules p i l)[j]? = (l[j]?).map (fun s => allowSshRule p (i + j) s) := by
  induction l generalizing i j with
  | nil => simp [buildAllowRules]
  | cons s rest ih =>
    cases j with
    | zero => simp [buildAllowRules]
    | succ j' =>
      simp only [buildAllowRules, List.getElem?_cons_succ, ih]
      have : i + (j' + 1) = (i + 1) + j' := by omega
      rw [this]

/-! ## Tags (`AzureVMCreator._add_tags`, lines 154–159)

`tags = self.config.get('tags', {})` returns the *stored* dictionary
when the key is present, so `tags['CreatedAt'] = ...` writes through to
the configuration.  When the key is absent the default `{}` is a fresh
dictionary and the configuration is untouched.  Dictionaries are
modelled as association lists preserving insertion order. -/

def dictGet : List (String × String) → String → Option String
  | [], _ => none
  | p :: rest, k => if p.1 == k then some p.2 else dictGet rest k

/-- Python `d[k] = v` on an insertion-ordered dictionary: overwrite the
existing entry in place (a dict holds each key at most once), else
append at the end. -/
def dictSet : List (String × String) → String → String → List (String × String)
  | [], k, v => [(k, v)]
  | p :: rest, k, v =>
    if p.1 == k then (k, v) :: rest else p :: dictSet rest k v

/-- `_add_tags` at one creation call, with `now` the value of
`datetime.now().isoformat()` for that call.  Result: the `tags` value
placed into `params` (always set, since after inserting `CreatedAt` the
dictionary is non-empty and hence truthy at line 158), and the
configuration's `tags` entry after the call (mutated by aliasing when it
was present). -/
def addTags : Option (List (String × String)) → String →
    List (String × String) × Option (List (String × String))
  | some t, now =>
    let t' := dictSet t "CreatedAt" now
    (t', some t')
  | none, now => ([("CreatedAt", now)], none)

/-! ## The seven creation steps -/

inductive Node where
  | ResourceGroup
  | VirtualNetwork
  | Subnet
  | PublicIP
  | NetworkSecurityGroup
  | NetworkInterface
  | VirtualMachine
  deriving Repr, DecidableEq

/-- Which of the seven `create_*` methods invoke `_add_tags` on their
params: every one of them does (lines 175, 201, 248, 304, 334, 389)
except `create_subnet` (lines 215–236), whose `subnet_params` carry only
`address_prefix`. -/
def stepAttachesTags : Node → Bool
  | .Subnet => false
  | _ => true

/-- The value returned by one creation step, abstracting the Azure SDK
resource object: only its identity is consumed downstream (`.id` at
lines 485–487, 493). -/
structure Handle where
  kind : Node
  name : String
  id : String
  deriving Repr, DecidableEq

/-! ## Resource-group idempotency
(`AzureVMCreator.create_resource_group`, lines 161–186)

The remote resource-group API is modelled as a world carrying the set of
existing group names plus ghost counters for the remote `get` and
`create_or_update` calls issued.  The bare `except: pass` of lines
171–172 treats every failing `get` as "does not exist", so `get` is
modelled as found / not-found. -/

structure RGHandle where
  name : String
  fromExisting : Bool
  deriving Repr, DecidableEq

structure RGWorld where
  existing : List String
  createCalls : Nat
  getCalls : Nat
  deriving Repr, DecidableEq

/-- `self.resource_client.resource_groups.get(name)` (line 168). -/
def rgGet (w : RGWorld) (name : String) : Option RGHandle :=
  if name ∈ w.existing then some ⟨name, true⟩ else none

/-- `create_resource_group` (lines 161–186): probe with `get`; on
success return the existing group (lines 167–170); otherwise call
`create_or_update` (lines 174–179), which makes the group exist. -/
def create_resource_group (w : RGWorld) (name : String) : RGHandle × RGWorld :=
  let w₁ : RGWorld := { w with getCalls := w.getCalls + 1 }
  match rgGet w name with
  | some h => (h, w₁)
  | none =>
    (⟨name, false⟩,
     { w₁ with existing := w₁.existing ++ [name], createCalls := w₁.createCalls + 1 })

/-! ## Post-creation read-back (`AzureVMCreator.get_vm_info`, lines 403–434) -/

structure VMData where
  name : String
  vm_id : String
  location : String
  vm_size : String
  provisioning_state : String
  deriving Repr

/-- The two remote reads `get_vm_info` performs: the VM fetch (line 406)
and the public-IP fetch (lines 415–417).  `Except.ok none` for the
public IP models a fetched address object whose `ip_address` is `None`
(not yet allocated). -/
structure InfoEnv where
  vmGet : Except String VMData
  ipLookup : Except String (Option String)

/-- Lines 412–420: `public_ip_address = "No asignada"`, overwritten with
`public_ip.ip_address or "Pendiente"` when the name is configured and
the lookup succeeds; the inner bare `except: pass` swallows a failing
lookup, keeping the placeholder. -/
def publicIpField (public_ip_name : Option String) (lookup : Except String (Option String)) :
    String :=
  match public_ip_name with
  | none => "No asignada"
  | some n =>
    if n.isEmpty then "No asignada"
    else
      match lookup with
      | .error _ => "No asignada"
      | .ok none => "Pendiente"
      | .ok (some ip) => if ip.isEmpty then "Pendiente" else ip

/-- `get_vm_info` (lines 403–434): on a failing VM fetch the outer
handler returns the empty dictionary (line 434); otherwise the summary
dictionary of lines 422–430.  Values are `Option String` because
`self.config.get('admin_username')` may be `None`. -/
def get_vm_info (cfg : Config) (env : InfoEnv) : List (String × Option String) :=
  match env.vmGet with
  | .error _ => []
  | .ok vm =>
    [("vm_name", some vm.name), ("vm_id", some vm.vm_id), ("location", some vm.location),
     ("vm_size", some vm.vm_size), ("provisioning_state", some vm.provisioning_state),
     ("public_ip",
       some (publicIpField (cfg.network.bind (fun n => n.public_ip_name)) env.ipLookup)),
     ("admin_username", cfg.admin_username)]

def infoGet (l : List (String × Option String)) (k : String) : Option (Option String) :=
  (l.find? (fun p => p.1 == k)).map (fun p => p.2)

/-! ## The full run (`AzureVMCreator.create_complete_vm`, lines 436–511)

The seven remote creations are abstracted as an oracle giving each
step's outcome; the `try`/`except` of lines 438–511 turns the first
raised error into the return value `None`.  The `Trace` records, as
ghost instrumentation, which steps were attempted, the handles returned
by the successful ones in order, and the summary computed by the
read-back — none of which is part of the function's return value. -/

structure Trace where
  attempted : List Node
  created : List Handle
  summary : Option (List (String × Option String))
  deriving Repr

def creationOrder : List Node :=
  [.ResourceGroup, .VirtualNetwork, .Subnet, .PublicIP, .NetworkSecurityGroup,
   .NetworkInterface, .VirtualMachine]

def isOkE : Except String Handle → Bool
  | .ok _ => true
  | .error _ => false

/-- `create_complete_vm` (lines 436–511): the seven creation calls in
program order (lines 450–494), aborted by the first exception, then the
best-effort `get_vm_info` (line 497) whose result is only logged; the
function returns the VM object on success and `None` on any failure. -/
def runComplete (oracle : Node → Except String Handle) (cfg : Config) (env : InfoEnv) :
    Trace × Option Handle :=
  match oracle .ResourceGroup with
  | .error _ => (⟨[.ResourceGroup], [], none⟩, none)
  | .ok h₁ =>
    match oracle .VirtualNetwork with
    | .error _ => (⟨[.ResourceGroup, .VirtualNetwork], [h₁], none⟩, none)
    | .ok h₂ =>
      match oracle .Subnet with
      | .error _ => (⟨[.ResourceGroup, .VirtualNetwork, .Subnet], [h₁, h₂], none⟩, none)
      | .ok h₃ =>
        match oracle .PublicIP with
        | .error _ =>
          (⟨[.ResourceGroup, .VirtualNetwork, .Subnet, .PublicIP], [h₁, h₂, h₃], none⟩, none)
        | .ok h₄ =>
          match oracle .NetworkSecurityGroup with
          | .error _ =>
            (⟨[.ResourceGroup, .VirtualNetwork, .Subnet, .PublicIP, .NetworkSecurityGroup],
              [h₁, h₂, h₃, h₄], none⟩, none)
          | .ok h₅ =>
            match oracle .NetworkInterface with
            | .error _ =>
              (⟨[.ResourceGroup, .VirtualNetwork, .Subnet, .PublicIP, .NetworkSecurityGroup,
                 .NetworkInterface], [h₁, h₂, h₃, h₄, h₅], none⟩, none)
            | .ok h₆ =>
              match oracle .VirtualMachine with
              | .error _ =>
                (⟨creationOrder, [h₁, h₂, h₃, h₄, h₅, h₆], none⟩, none)
              | .ok h₇ =>
                (⟨creationOrder, [h₁, h₂, h₃, h₄, h₅, h₆, h₇],
                  some (get_vm_info cfg env)⟩, some h₇)

/-! ## Dictionary lemmas -/

theorem dictGet_dictSet_self (d : List (String × String)) (k v : String) :
    dictGet (dictSet d k v) k = some v := by
  induction d with
  | nil => simp [dictSet, dictGet]
  | cons x rest ih =>
    by_cases hp : (x.1 == k) = true
    · simp [dictSet, dictGet, hp]
    · simp only [Bool.not_eq_true] at hp
      simp [dictSet, dictGet, hp, ih]

theorem dictGet_dictSet_ne (d : List (String × String)) (k k' v : String) (hk : k' ≠ k) :
    dictGet (dictSet d k v) k' = dictGet d k' := by
  have hkk : (k == k') = false := by
    simp only [beq_eq_false_iff_ne, ne_eq]
    exact fun h => hk h.symm
  induction d with
  | nil => simp [dictSet, dictGet, hkk]
  | cons x rest ih =>
    by_cases hp : (x.1 == k) = true
    · have hx : x.1 = k := by simpa using hp
      simp [dictSet, dictGet, hp, hkk, hx]
    · simp only [Bool.not_eq_true] at hp
      simp [dictSet, dictGet, hp, ih]

/-! ## Boolean list lemmas for the vm-name rule -/

theorem all_filter_or (f q : Char → Bool) (l : List Char) :
    (l.filter f).all q = l.all (fun c => !(f c) || q c) := by
  induction l with
  | nil => rfl
  | cons c rest ih =>
    cases hf : f c <;> simp [List.filter_cons, List.all_cons, hf, ih]

theorem isEmpty_filter_not_any (f : Char → Bool) (l : List Char) :
    (l.filter f).isEmpty = !(l.any f) := by
  induction l with
  | nil => rfl
  | cons c rest ih =>
    cases hf : f c <;> simp [List.filter_cons, List.any_cons, hf, ih]

theorem keep_or_alnum (c : Char) :
    (!(!(c == '-' || c == '_')) || pyIsAlnumChar c)
      = (pyIsAlnumChar c || c == '-' || c == '_') := by
  cases hd : (c == '-') <;> cases hu : (c == '_') <;> cases ha : pyIsAlnumChar c <;>
    simp [hd, hu, ha]

/-! ## Concrete configurations used by witnesses and counterexamples -/

/-- The spec §8 scenario configuration: one allowed SSH source. -/
def cfgOneSource : Config :=
  { defaultConfig with
      vm_name := some "web01"
      resource_group := some "rg-web"
      admin_password := some "Str0ngPass!"
      security := some { ssh_port := some 22, allowed_ssh_sources := some ["10.0.0.0/8"] } }

/-- A configuration with empty `admin_password` and out-of-range
`ssh_port`: spec rules 1, 3 and 5 fail on it. -/
def cfgBadPassword : Config :=
  { defaultConfig with
      admin_password := some ""
      security := some { ssh_port := some 0, allowed_ssh_sources := some ["10.0.0.0/8"] } }

/-- A configuration whose `allowed_ssh_sources` list is empty. -/
def cfgEmptySources : Config :=
  { defaultConfig with
      admin_password := some "Str0ngPass!"
      security := some { ssh_port := some 22, allowed_ssh_sources := some [] } }

/-! ## Claim theorems -/

/-- C1: for a configuration whose security section lists `n` allowed SSH
sources and port `p`, the NSG rule list has exactly `n` allow rules —
the `i`-th being Allow/Inbound/Tcp from the `i`-th source in input
order, to destination port `p`, at priority `1000 + i` — followed by
exactly one final Deny/Inbound rule with protocol `*` and priority
4096. -/
theorem c1_nsg_rule_list (cfg : Config) (p : Nat) (srcs : List String)
    (hsec : cfg.security = some { ssh_port := some p, allowed_ssh_sources := some srcs }) :
    (nsgSecurityRules cfg).length = srcs.length + 1 ∧
    (∀ i, i < srcs.length →
      (nsgSecurityRules cfg)[i]? =
        some { name := "SSH_" ++ toString (i + 1), protocol := "Tcp",
               source_port_range := "*", destination_port_range := toString p,
               source_address_pfx := srcs[i]?.getD "", destination_address_pfx := "*",
               access := "Allow", priority := 1000 + i, direction := "Inbound" }) ∧
    (nsgSecurityRules cfg)[srcs.length]? = some denyAllInboundRule := by
  have hrules : nsgSecurityRules cfg = buildAllowRules p 0 srcs ++ [denyAllInboundRule] := by
    simp [nsgSecurityRules, hsec]
  refine ⟨?_, ?_, ?_⟩
  · rw [hrules]
    simp [length_buildAllowRules]
  · intro i hi
    have hi' : i < (buildAllowRules p 0 srcs).length := by
      rw [length_buildAllowRules]; exact hi
    obtain ⟨s, hs⟩ : ∃ s, srcs[i]? = some s :=
      ⟨srcs[i], List.getElem?_eq_getElem hi⟩
    rw [hrules, List.getElem?_append, if_pos hi', getElem?_buildAllowRules, hs]
    simp [allowSshRule]
  · rw [hrules, List.getElem?_append,
      if_neg (by rw [length_buildAllowRules]; omega)]
    simp [length_buildAllowRules]

/-- Witness for C1 at the spec §8 scenario configuration. -/
theorem c1_witness :
    (nsgSecurityRules cfgOneSource).length = 2 ∧
    (nsgSecurityRules cfgOneSource)[0]? =
      some { name := "SSH_1", protocol := "Tcp", source_port_range := "*",
             destination_port_range := "22", source_address_pfx := "10.0.0.0/8",
             destination_address_pfx := "*", access := "Allow", priority := 1000,
             direction := "Inbound" } ∧
    (nsgSecurityRules cfgOneSource)[1]? = some denyAllInboundRule := by
  have h := c1_nsg_rule_list cfgOneSource 22 ["10.0.0.0/8"] rfl
  refine ⟨h.1, ?_, h.2.2⟩
  have h0 := h.2.1 0 (by decide)
  simpa using h0

/-- C10: a configuration lacking the security section (or both of its
keys) defaults to `allowed_ssh_sources = ['*']` and `ssh_port = 22`, so
the NSG permits SSH from any source at priority 1000, before the
deny-all rule. -/
theorem c10_default_open_ssh (cfg : Config)
    (h : cfg.security = none ∨
         cfg.security = some { ssh_port := none, allowed_ssh_sources := none }) :
    nsgSecurityRules cfg =
      [{ name := "SSH_1", protocol := "Tcp", source_port_range := "*",
         destination_port_range := "22", source_address_pfx := "*",
         destination_address_pfx := "*", access := "Allow", priority := 1000,
         direction := "Inbound" }, denyAllInboundRule] := by
  rcases h with h | h <;>
    · simp only [nsgSecurityRules, h]
      decide

/-- Witness for C10 at a configuration with no security section. -/
theorem c10_witness :
    nsgSecurityRules { defaultConfig with security := none } =
      [{ name := "SSH_1", protocol := "Tcp", source_port_range := "*",
         destination_port_range := "22", source_address_pfx := "*",
         destination_address_pfx := "*", access := "Allow", priority := 1000,
         direction := "Inbound" }, denyAllInboundRule] :=
  c10_default_open_ssh { defaultConfig with security := none } (Or.inl rfl)

/-- C3 counterexample: a configuration whose `admin_password` is empty
(claim rule 1 fails) and whose `ssh_port` is 0 (claim rule 5 fails) is
nonetheless accepted by `validate` — the claim that validation rejects
exactly when some of rules 1–5 fails is false on the code. -/
theorem c3_counterexample :
    cfgBadPassword.admin_password = some "" ∧
    cfgBadPassword.security =
      some { ssh_port := some 0, allowed_ssh_sources := some ["10.0.0.0/8"] } ∧
    validate cfgBadPassword = true := by
  refine ⟨rfl, rfl, ?_⟩
  decide

/-- C3 amended: validation checks, in order with the first failure
winning, only (1) `vm_name`, `resource_group`, `location`,
`admin_username` present and non-empty, and (2) the vm-name shape rule;
`admin_password`, the CIDR fields and `ssh_port` are never inspected. -/
theorem c3_amended_validate (cfg : Config) (pw : Option String)
    (sec : Option SecuritySection) (net : Option NetworkSection) :
    validate { cfg with admin_password := pw, security := sec, network := net }
      = validate cfg ∧
    (validate cfg = true ↔
      pyTruthy cfg.vm_name = true ∧ pyTruthy cfg.resource_group = true ∧
      pyTruthy cfg.location = true ∧ pyTruthy cfg.admin_username = true ∧
      vmNameOk (cfg.vm_name.getD "") = true) := by
  refine ⟨rfl, ?_⟩
  simp [validate, Bool.and_eq_true, and_assoc]

/-- Witness for C3 amended at the default configuration. -/
theorem c3_amended_witness :
    validate { defaultConfig with
                 admin_password := some "x", security := none, network := none }
      = validate defaultConfig ∧
    validate defaultConfig = true :=
  ⟨(c3_amended_validate defaultConfig (some "x") none none).1,
   (c3_amended_validate defaultConfig none none none).2.mpr
     (by refine ⟨?_, ?_, ?_, ?_, ?_⟩ <;> decide)⟩

/-- C9 counterexample: a configuration with an empty
`allowed_ssh_sources` list is accepted by `validate`, contradicting the
claim that validation rejects it before any resource call. -/
theorem c9_counterexample :
    cfgEmptySources.security = some { ssh_port := some 22, allowed_ssh_sources := some [] } ∧
    validate cfgEmptySources = true := by
  refine ⟨rfl, ?_⟩
  decide

/-- C9 amended: validation never inspects the security section at all —
replacing it (in particular by one with an empty source list) cannot
change the verdict — and for an empty `allowed_ssh_sources` list the
NSG step builds only the single deny-all rule. -/
theorem c9_amended (cfg : Config) (sec sec' : Option SecuritySection) :
    validate { cfg with security := sec } = validate { cfg with security := sec' } ∧
    nsgSecurityRules
        { cfg with security := some { ssh_port := some 22, allowed_ssh_sources := some [] } }
      = [denyAllInboundRule] := by
  exact ⟨rfl, by simp [nsgSecurityRules, buildAllowRules]⟩

/-- Witness for C9 amended at the empty-sources configuration. -/
theorem c9_amended_witness :
    validate { defaultConfig with security := some { ssh_port := some 22, allowed_ssh_sources := some [] } }
      = validate { defaultConfig with security := none } ∧
    nsgSecurityRules
        { defaultConfig with security := some { ssh_port := some 22, allowed_ssh_sources := some [] } }
      = [denyAllInboundRule] :=
  c9_amended defaultConfig
    (some { ssh_port := some 22, allowed_ssh_sources := some [] }) none

/-- C8 counterexample: the string consisting of a single hyphen matches
the claimed regular expression `^[A-Za-z0-9_-]{1,64}$`, yet validation
rejects it (`"".isalnum()` is false after the hyphen is stripped). -/
theorem c8_counterexample :
    matchesVmNameRegex "-" = true ∧
    validate { defaultConfig with vm_name := some "-" } = false := by
  refine ⟨rfl, ?_⟩
  decide

/-- C8 amended: validation accepts `s` as a `vm_name` iff `s` matches
`^[A-Za-z0-9_-]{1,64}$` and additionally contains at least one character
other than `-` and `_` (on ASCII input; CPython's `isalnum` would also
admit non-ASCII alphanumerics). -/
theorem c8_amended_vm_name (s : String) :
    vmNameOk s = true ↔
      (matchesVmNameRegex s = true ∧
       s.data.any (fun c => !(c == '-' || c == '_')) = true) := by
  have hdata : (stripDashUnderscore s).data
      = s.data.filter (fun c => !(c == '-' || c == '_')) := rfl
  have hall := all_filter_or (fun c => !(c == '-' || c == '_')) pyIsAlnumChar s.data
  have hempty := isEmpty_filter_not_any (fun c => !(c == '-' || c == '_')) s.data
  have hptw : (fun c => !(!(c == '-' || c == '_')) || pyIsAlnumChar c)
      = (fun c => pyIsAlnumChar c || c == '-' || c == '_') := funext keep_or_alnum
  rw [hptw] at hall
  simp only [vmNameOk, matchesVmNameRegex, pyIsAlnum, hdata, hall, hempty,
    pyIsAlnumChar, Bool.and_eq_true, Bool.not_eq_true', Bool.not_eq_false',
    Bool.not_eq_false]
  tauto

/-- Witness for C8 amended at the scenario name `web01`. -/
theorem c8_amended_witness :
    vmNameOk "web01" = true ∧ matchesVmNameRegex "web01" = true :=
  ⟨(c8_amended_vm_name "web01").mpr (by refine ⟨?_, ?_⟩ <;> decide),
   by decide⟩

/-- C4: the ResourceGroup step always probes with `get` first; when the
group exists it returns the existing handle and issues no create; it
issues `create_or_update` only when the group is absent; and running the
step twice with the same name never issues two creates — the second run
always takes the get-then-reuse path. -/
theorem c4_rg_idempotent (w : RGWorld) (name : String) :
    ((create_resource_group w name).2.getCalls = w.getCalls + 1) ∧
    (name ∈ w.existing →
      (create_resource_group w name).1 = ⟨name, true⟩ ∧
      (create_resource_group w name).2.createCalls = w.createCalls) ∧
    (name ∉ w.existing →
      (create_resource_group w name).2.createCalls = w.createCalls + 1) ∧
    ((create_resource_group (create_resource_group w name).2 name).2.createCalls
      = (create_resource_group w name).2.createCalls) ∧
    ((create_resource_group (create_resource_group w name).2 name).2.createCalls
      ≤ w.createCalls + 1) := by
  by_cases h : name ∈ w.existing
  · simp [create_resource_group, rgGet, h]
  · simp [create_resource_group, rgGet, h, List.mem_append]

/-- Witness for C4: two runs from an empty world make exactly one
create call. -/
theorem c4_witness :
    (create_resource_group ⟨[], 0, 0⟩ "rg-web").2.createCalls = 0 + 1 ∧
    (create_resource_group (create_resource_group ⟨[], 0, 0⟩ "rg-web").2 "rg-web").2.createCalls
      ≤ 0 + 1 := by
  have h := c4_rg_idempotent ⟨[], 0, 0⟩ "rg-web"
  exact ⟨h.2.2.1 (by simp), h.2.2.2.2⟩

/-- C7 counterexample: `_add_tags` writes the `CreatedAt` key through
to the stored configuration's tags dictionary (the aliasing of line
156), so the stored mapping after one call differs from what it was —
the claim that the computation never mutates the stored tags is false. -/
theorem c7_counterexample :
    (addTags (some [("Environment", "Production")]) "2025-06-06T10:00:00").2 =
      some [("Environment", "Production"), ("CreatedAt", "2025-06-06T10:00:00")] ∧
    (addTags (some [("Environment", "Production")]) "2025-06-06T10:00:00").2 ≠
      some [("Environment", "Production")] := by
  refine ⟨rfl, ?_⟩
  decide

/-- C7 amended: every creation call except Subnet attaches the
configured tags augmented with a `CreatedAt` entry carrying that call's
own timestamp, other tag entries are passed through unchanged, and
Subnet attaches no tags — but when the configuration has a tags
mapping, `_add_tags` also mutates that stored mapping in place, leaving
the augmented dictionary behind (only an absent tags key leaves the
configuration untouched). -/
theorem c7_tags (t : List (String × String)) (now : String) :
    dictGet (addTags (some t) now).1 "CreatedAt" = some now ∧
    (∀ k, k ≠ "CreatedAt" → dictGet (addTags (some t) now).1 k = dictGet t k) ∧
    (addTags (some t) now).2 = some (addTags (some t) now).1 ∧
    (addTags none now).1 = [("CreatedAt", now)] ∧
    (addTags none now).2 = none ∧
    stepAttachesTags .Subnet = false ∧
    (∀ n : Node, n ≠ .Subnet → stepAttachesTags n = true) := by
  refine ⟨dictGet_dictSet_self t "CreatedAt" now,
    fun k hk => dictGet_dictSet_ne t "CreatedAt" k now hk, rfl, rfl, rfl, rfl, ?_⟩
  intro n hn
  cases n <;> first | rfl | exact absurd rfl hn

/-- Witness for C7 amended at the default tag dictionary: the params
carry the fresh timestamp, the pre-existing entry survives, and the
stored configuration ends up mutated to the very same dictionary. -/
theorem c7_witness :
    dictGet (addTags (some [("Environment", "Production")]) "2025-06-06T11:00:00").1 "CreatedAt"
      = some "2025-06-06T11:00:00" ∧
    dictGet (addTags (some [("Environment", "Production")]) "2025-06-06T11:00:00").1 "Environment"
      = dictGet [("Environment", "Production")] "Environment" ∧
    (addTags (some [("Environment", "Production")]) "2025-06-06T11:00:00").2
      = some (addTags (some [("Environment", "Production")]) "2025-06-06T11:00:00").1 ∧
    stepAttachesTags .VirtualMachine = true := by
  have h := c7_tags [("Environment", "Production")] "2025-06-06T11:00:00"
  exact ⟨h.1, h.2.1 "Environment" (by decide), h.2.2.1,
    h.2.2.2.2.2.2 .VirtualMachine (by decide)⟩

/-! ## Concrete oracles and read-back environments -/

def handleOf (n : Node) : Handle := ⟨n, "r", "id"⟩

def oracleAllOk : Node → Except String Handle := fun n => .ok (handleOf n)

def oracleFailNSG : Node → Except String Handle
  | .NetworkSecurityGroup => .error "quota exceeded"
  | n => .ok (handleOf n)

def oracleFailRG : Node → Except String Handle
  | .ResourceGroup => .error "authorization failed"
  | n => .ok (handleOf n)

def envAllOk : InfoEnv :=
  ⟨.ok ⟨"azure-vm-prod", "vmid-123", "East US", "Standard_B2s", "Succeeded"⟩,
   .ok (some "20.1.2.3")⟩

def envIpFail : InfoEnv :=
  ⟨.ok ⟨"azure-vm-prod", "vmid-123", "East US", "Standard_B2s", "Succeeded"⟩,
   .error "GET public ip timed out"⟩

/-- C5: the creation steps run strictly sequentially in the fixed order
(the attempted list is always an initial segment of `creationOrder`);
NetworkInterface is attempted only after Subnet, PublicIP and
NetworkSecurityGroup each returned a handle, and VirtualMachine only
after NetworkInterface returned a handle. -/
theorem c5_sequential (oracle : Node → Except String Handle) (cfg : Config) (env : InfoEnv) :
    ((runComplete oracle cfg env).1.attempted
      = creationOrder.take (runComplete oracle cfg env).1.attempted.length) ∧
    (.NetworkInterface ∈ (runComplete oracle cfg env).1.attempted →
      isOkE (oracle .Subnet) = true ∧ isOkE (oracle .PublicIP) = true ∧
      isOkE (oracle .NetworkSecurityGroup) = true) ∧
    (.VirtualMachine ∈ (runComplete oracle cfg env).1.attempted →
      isOkE (oracle .NetworkInterface) = true) := by
  unfold runComplete
  repeat' split
  all_goals simp_all [creationOrder, isOkE]

/-- Witness for C5 at an all-successful oracle: both memberships hold
and the theorem yields the required step successes. -/
theorem c5_witness :
    isOkE (oracleAllOk .Subnet) = true ∧ isOkE (oracleAllOk .PublicIP) = true ∧
    isOkE (oracleAllOk .NetworkSecurityGroup) = true ∧
    isOkE (oracleAllOk .NetworkInterface) = true := by
  have h := c5_sequential oracleAllOk defaultConfig envAllOk
  have hmem : Node.NetworkInterface ∈ (runComplete oracleAllOk defaultConfig envAllOk).1.attempted := by
    decide
  have hmem' : Node.VirtualMachine ∈ (runComplete oracleAllOk defaultConfig envAllOk).1.attempted := by
    decide
  exact ⟨(h.2.1 hmem).1, (h.2.1 hmem).2.1, (h.2.1 hmem).2.2, h.2.2 hmem'⟩

/-- C2 counterexample: a run failing at NetworkSecurityGroup and a run
failing at ResourceGroup return the **same** outcome `none`, although
their failed nodes and their lists of previously created handles differ
— so the returned outcome of `create_complete_vm` carries neither the
identity of the failed node nor the partial-creation list; those appear
only in the log. -/
theorem c2_counterexample :
    (runComplete oracleFailNSG defaultConfig envAllOk).2 = none ∧
    (runComplete oracleFailRG defaultConfig envAllOk).2 = none ∧
    (runComplete oracleFailNSG defaultConfig envAllOk).1.created =
      [handleOf .ResourceGroup, handleOf .VirtualNetwork, handleOf .Subnet,
       handleOf .PublicIP] ∧
    (runComplete oracleFailRG defaultConfig envAllOk).1.created = [] ∧
    (runComplete oracleFailNSG defaultConfig envAllOk).2 =
      (runComplete oracleFailRG defaultConfig envAllOk).2 :=
  ⟨rfl, rfl, rfl, rfl, rfl⟩

/-- C2 amended: in every run whose first failing creation step is the
`k`-th node of the fixed order (every earlier step succeeded, the `k`-th
failed), no later node is attempted — the steps actually run are exactly
the prefix of the fixed order ending at the failed node, and the handles
created before the failure are exactly those of the earlier steps in
order — but the function merely returns the unstructured failure marker
`None`; node identity, cause and partial list are logged, not
returned. -/
theorem c2_short_circuit (oracle : Node → Except String Handle) (cfg : Config)
    (env : InfoEnv) (k : Nat) (hk : k < creationOrder.length)
    (Hok : ∀ j (hj : j < k),
      isOkE (oracle (creationOrder.get ⟨j, Nat.lt_trans hj hk⟩)) = true)
    (Hfail : isOkE (oracle (creationOrder.get ⟨k, hk⟩)) = false) :
    (runComplete oracle cfg env).1.attempted = creationOrder.take (k + 1) ∧
    (runComplete oracle cfg env).1.created
      = (creationOrder.take k).filterMap (fun m => (oracle m).toOption) ∧
    (runComplete oracle cfg env).2 = none := by
  have hOk : ∀ j (hj : j < k),
      ∃ h, oracle (creationOrder.get ⟨j, Nat.lt_trans hj hk⟩) = .ok h := by
    intro j hj
    have hj' := Hok j hj
    cases he : oracle (creationOrder.get ⟨j, Nat.lt_trans hj hk⟩) with
    | ok h => exact ⟨h, rfl⟩
    | error e => rw [he] at hj'; exact absurd hj' (by simp [isOkE])
  have hFail : ∃ e, oracle (creationOrder.get ⟨k, hk⟩) = .error e := by
    cases he : oracle (creationOrder.get ⟨k, hk⟩) with
    | ok h => rw [he] at Hfail; exact absurd Hfail (by simp [isOkE])
    | error e => exact ⟨e, rfl⟩
  have hk7 : k < 7 := by simpa [creationOrder] using hk
  clear Hok Hfail
  interval_cases k
  · obtain ⟨e, he⟩ := hFail
    have E : oracle Node.ResourceGroup = .error e := he
    simp [runComplete, creationOrder, E]
  · obtain ⟨a, Ha⟩ := hOk 0 (by omega)
    obtain ⟨e, he⟩ := hFail
    have A0 : oracle Node.ResourceGroup = .ok a := Ha
    have E : oracle Node.VirtualNetwork = .error e := he
    simp [runComplete, creationOrder, A0, E, Except.toOption]
  · obtain ⟨a, Ha⟩ := hOk 0 (by omega)
    obtain ⟨b, Hb⟩ := hOk 1 (by omega)
    obtain ⟨e, he⟩ := hFail
    have A0 : oracle Node.ResourceGroup = .ok a := Ha
    have A1 : oracle Node.VirtualNetwork = .ok b := Hb
    have E : oracle Node.Subnet = .error e := he
    simp [runComplete, creationOrder, A0, A1, E, Except.toOption]
  · obtain ⟨a, Ha⟩ := hOk 0 (by omega)
    obtain ⟨b, Hb⟩ := hOk 1 (by omega)
    obtain ⟨c, Hc⟩ := hOk 2 (by omega)
    obtain ⟨e, he⟩ := hFail
    have A0 : oracle Node.ResourceGroup = .ok a := Ha
    have A1 : oracle Node.VirtualNetwork = .ok b := Hb
    have A2 : oracle Node.Subnet = .ok c := Hc
    have E : oracle Node.PublicIP = .error e := he
    simp [runComplete, creationOrder, A0, A1, A2, E, Except.toOption]
  · obtain ⟨a, Ha⟩ := hOk 0 (by omega)
    obtain ⟨b, Hb⟩ := hOk 1 (by omega)
    obtain ⟨c, Hc⟩ := hOk 2 (by omega)
    obtain ⟨d, Hd⟩ := hOk 3 (by omega)
    obtain ⟨e, he⟩ := hFail
    have A0 : oracle Node.ResourceGroup = .ok a := Ha
    have A1 : oracle Node.VirtualNetwork = .ok b := Hb
    have A2 : oracle Node.Subnet = .ok c := Hc
    have A3 : oracle Node.PublicIP = .ok d := Hd
    have E : oracle Node.NetworkSecurityGroup = .error e := he
    simp [runComplete, creationOrder, A0, A1, A2, A3, E, Except.toOption]
  · obtain ⟨a, Ha⟩ := hOk 0 (by omega)
    obtain ⟨b, Hb⟩ := hOk 1 (by omega)
    obtain ⟨c, Hc⟩ := hOk 2 (by omega)
    obtain ⟨d, Hd⟩ := hOk 3 (by omega)
    obtain ⟨f, Hf⟩ := hOk 4 (by omega)
    obtain ⟨e, he⟩ := hFail
    have A0 : oracle Node.ResourceGroup = .ok a := Ha
    have A1 : oracle Node.VirtualNetwork = .ok b := Hb
    have A2 : oracle Node.Subnet = .ok c := Hc
    have A3 : oracle Node.PublicIP = .ok d := Hd
    have A4 : oracle Node.NetworkSecurityGroup = .ok f := Hf
    have E : oracle Node.NetworkInterface = .error e := he
    simp [runComplete, creationOrder, A0, A1, A2, A3, A4, E, Except.toOption]
  · obtain ⟨a, Ha⟩ := hOk 0 (by omega)
    obtain ⟨b, Hb⟩ := hOk 1 (by omega)
    obtain ⟨c, Hc⟩ := hOk 2 (by omega)
    obtain ⟨d, Hd⟩ := hOk 3 (by omega)
    obtain ⟨f, Hf⟩ := hOk 4 (by omega)
    obtain ⟨g, Hg⟩ := hOk 5 (by omega)
    obtain ⟨e, he⟩ := hFail
    have A0 : oracle Node.ResourceGroup = .ok a := Ha
    have A1 : oracle Node.VirtualNetwork = .ok b := Hb
    have A2 : oracle Node.Subnet = .ok c := Hc
    have A3 : oracle Node.PublicIP = .ok d := Hd
    have A4 : oracle Node.NetworkSecurityGroup = .ok f := Hf
    have A5 : oracle Node.NetworkInterface = .ok g := Hg
    have E : oracle Node.VirtualMachine = .error e := he
    simp [runComplete, creationOrder, A0, A1, A2, A3, A4, A5, E, Except.toOption]

/-- Witness for C2 amended: the NSG-failing oracle instantiates the
theorem at position 4 of the fixed order. -/
theorem c2_witness :
    (runComplete oracleFailNSG defaultConfig envAllOk).1.attempted =
      [.ResourceGroup, .VirtualNetwork, .Subnet, .PublicIP, .NetworkSecurityGroup] ∧
    (runComplete oracleFailNSG defaultConfig envAllOk).1.created =
      [handleOf .ResourceGroup, handleOf .VirtualNetwork, handleOf .Subnet,
       handleOf .PublicIP] ∧
    (runComplete oracleFailNSG defaultConfig envAllOk).2 = none := by
  have h := c2_short_circuit oracleFailNSG defaultConfig envAllOk 4
    (by simp [creationOrder])
    (by intro j hj; interval_cases j <;> rfl)
    (by rfl)
  refine ⟨?_, ?_, h.2.2⟩
  · rw [h.1]; rfl
  · rw [h.2.1]; rfl

/-- C6 counterexample: when the public-IP lookup fails the summary's
`public_ip` field holds the placeholder `"No asignada"` — not the
claimed literal `"unassigned"` — while the overall run still succeeds. -/
theorem c6_counterexample :
    infoGet (get_vm_info defaultConfig envIpFail) "public_ip" = some (some "No asignada") ∧
    ("No asignada" : String) ≠ "unassigned" ∧
    (runComplete oracleAllOk defaultConfig envIpFail).2 = some (handleOf .VirtualMachine) := by
  refine ⟨rfl, ?_, rfl⟩
  decide

/-- C6 amended: a failing public-IP lookup yields the placeholder
`"No asignada"` (as does a missing/empty configured name), an
unallocated address yields `"Pendiente"`, and the read-back can never
escalate: the run's returned outcome is the same whatever the read-back
environment does. -/
theorem c6_readback (cfg : Config) (env env' : InfoEnv)
    (oracle : Node → Except String Handle) :
    (∀ e, env.ipLookup = .error e →
      publicIpField (cfg.network.bind (fun n => n.public_ip_name)) env.ipLookup
        = "No asignada") ∧
    (∀ n, env.ipLookup = .ok none →
      cfg.network.bind (fun nn => nn.public_ip_name) = some n → n.isEmpty = false →
      publicIpField (cfg.network.bind (fun nn => nn.public_ip_name)) env.ipLookup
        = "Pendiente") ∧
    ((runComplete oracle cfg env).2 = (runComplete oracle cfg env').2) := by
  refine ⟨?_, ?_, ?_⟩
  · intro e he
    cases hx : cfg.network.bind (fun n => n.public_ip_name) with
    | none => simp [publicIpField]
    | some n =>
      by_cases hn : n.isEmpty = true <;> simp [publicIpField, he, hn]
  · intro n h1 h2 h3
    rw [h2]
    simp [publicIpField, h3, h1]
  · unfold runComplete
    repeat' split
    all_goals simp_all

/-- Witness for C6 amended at the failing-lookup environment. -/
theorem c6_witness :
    publicIpField (defaultConfig.network.bind (fun n => n.public_ip_name)) envIpFail.ipLookup
      = "No asignada" ∧
    (runComplete oracleAllOk defaultConfig envIpFail).2 =
      (runComplete oracleAllOk defaultConfig envAllOk).2 := by
  have h := c6_readback defaultConfig envIpFail envAllOk oracleAllOk
  exact ⟨h.1 "GET public ip timed out" rfl, h.2.2⟩

end CreateVM
